import Mathlib

/-!
# `winmain_wrapper.c`: the `WinMain` forwarder

Source: `src/vendor/windows_compat/src/winmain_wrapper.c` (14 lines).

The embedding has two parts.

* The run-time part: `WinMain` as a function of the console entry point `main`
  (a parameter: it lives in another translation unit), the four ABI parameters
  and an explicit process state holding the globals `__argc` and `__argv`.
* The build-time part: the file as a list of top-level lines and the
  `#ifdef` / `#endif` pass of the preprocessor over it.
-/

namespace WinmainWrapper

/-! ## Run-time model -/

/-- C `int`.  The forwarder performs no arithmetic and no conversion on an
`int` (callee result and own result have the same type), so the mathematical
integers are used without a wrap-around. -/
abbrev CInt := Int

/-- An instance handle (`HINSTANCE`): a pointer-sized value. -/
abbrev HINSTANCE := Nat

/-- The type `LPSTR` (`char *`): a possibly null C string. -/
abbrev LPSTR := Option String

/-- The process state seen by the forwarder: the two process-wide globals of
the C runtime it reads, and everything else (`world`), kept abstract. -/
structure Process (W : Type) where
  /-- The global `__argc`. -/
  __argc : CInt
  /-- The global `__argv`: the strings it points to, in order. -/
  __argv : List String
  /-- The rest of the process state (memory, files, console, ...). -/
  world : W
deriving DecidableEq, Repr

/-- What a call can do: return a status in a final state, end abnormally
(`exit`, `abort`, a crash, ...) in a final state, or never come back. -/
inductive Outcome (E W : Type) where
  | returned (status : CInt) (final : Process W)
  | failed (err : E) (final : Process W)
  | diverged
deriving DecidableEq, Repr

/-- The console entry point `extern int main(int argc, const char **argv)`:
it is defined elsewhere, so it is a parameter of the model.  It receives its
two arguments and the process state. -/
abbrev ConsoleMain (E W : Type) := CInt → List String → Process W → Outcome E W

/-- The statement `(void)x;`: evaluates `x` and throws the value away. -/
def discard {α : Type} (_x : α) : Unit := ()

/-- The cast `(const char**)`: the same pointer at another type, hence the same
strings in the same order. -/
def constCast (argv : List String) : List String := argv

/-- The function `WinMain` of `winmain_wrapper.c` (lines 7-13). -/
def WinMain {E W : Type} (main : ConsoleMain E W)
    (hInstance hPrevInstance : HINSTANCE) (lpCmdLine : LPSTR) (nCmdShow : CInt)
    (s : Process W) : Outcome E W :=
  let _ := discard hInstance
  let _ := discard hPrevInstance
  let _ := discard lpCmdLine
  let _ := discard nCmdShow
  main s.__argc (constCast s.__argv) s

/-! ### Observations on outcomes -/

/-- The final state of an outcome, when the call came back or ended. -/
def Outcome.final? {E W : Type} : Outcome E W → Option (Process W)
  | .returned _ f => some f
  | .failed _ f => some f
  | .diverged => none

/-- The status an outcome returns, when it returns. -/
def Outcome.status? {E W : Type} : Outcome E W → Option CInt
  | .returned r _ => some r
  | _ => none

/-- The failure of an outcome, when it is one. -/
def Outcome.error? {E W : Type} : Outcome E W → Option E
  | .failed e _ => some e
  | _ => none

/-- The call came back or ended: it did not run forever. -/
def Outcome.terminates {E W : Type} : Outcome E W → Bool
  | .diverged => false
  | _ => true

/-! ### Sample entry points and instrumentation -/

/-- A sample console entry point: status 1 and a bumped counter when some
argument after the program name is `--bad-flag`, status 0 otherwise. -/
def sampleMain : ConsoleMain String Nat := fun _argc argv s =>
  if (argv.drop 1).contains "--bad-flag" then
    .returned 1 { s with world := s.world + 1 }
  else
    .returned 0 s

/-- One recorded call of the console entry point: the arguments it received. -/
abbrev Call := CInt × List String

/-- Instrumentation of an entry point: the world is extended with a log of
calls; each call appends the arguments it received to the log and otherwise
behaves as `main` on the original world. -/
def logged {E W : Type} (main : ConsoleMain E W) : ConsoleMain E (W × List Call) :=
  fun argc argv s =>
    let log := s.world.2 ++ [(argc, argv)]
    match main argc argv { __argc := s.__argc, __argv := s.__argv, world := s.world.1 } with
    | .returned r f =>
        .returned r { __argc := f.__argc, __argv := f.__argv, world := (f.world, log) }
    | .failed e f =>
        .failed e { __argc := f.__argc, __argv := f.__argv, world := (f.world, log) }
    | .diverged => .diverged

/-- The call log of an outcome of an instrumented run. -/
def Outcome.log? {E W : Type} (o : Outcome E (W × List Call)) : Option (List Call) :=
  o.final?.map (fun f => f.world.2)

/-- An entry point that returns 0 and touches nothing. -/
def idleMain {E W : Type} : ConsoleMain E W := fun _argc _argv s => .returned 0 s

/-- A sample entry point that ends abnormally when given no argument after the
program name, and returns 0 otherwise. -/
def strictMain : ConsoleMain String Nat := fun _argc argv s =>
  if argv.length ≤ 1 then .failed "usage" { s with world := s.world + 1 } else .returned 0 s

/-! ## Build-time model -/

/-- A function signature as written in C: return type, name, parameter types. -/
structure Signature where
  ret : String
  name : String
  params : List String
deriving DecidableEq, Repr

/-- The top-level items of a C source file, as far as this file uses them. -/
inductive SrcLine where
  /-- A `//` comment. -/
  | comment (text : String)
  /-- The directive `#ifdef NAME`. -/
  | ifdefDirective (name : String)
  /-- The directive `#endif`. -/
  | endifDirective
  /-- The directive `#include <header>`. -/
  | includeDirective (header : String)
  /-- An empty line. -/
  | blank
  /-- A declaration of a function defined elsewhere. -/
  | declare (sig : Signature)
  /-- A function definition (signature and body). -/
  | define (sig : Signature)
deriving DecidableEq, Repr

/-- The signature of `main` as declared on line 5. -/
def mainSig : Signature := ⟨"int", "main", ["int", "const char **"]⟩

/-- The signature of `WinMain` as defined on line 7. -/
def WinMainSig : Signature := ⟨"int", "WinMain", ["HINSTANCE", "HINSTANCE", "LPSTR", "int"]⟩

/-- The file `winmain_wrapper.c`, top-level item by item (the definition of
`WinMain` spans lines 7-13). -/
def winmain_wrapper_c : List SrcLine :=
  [ .comment "Provide a WinMain that calls main() for console apps",
    .ifdefDirective "_WIN32",
    .includeDirective "windows.h",
    .blank,
    .declare mainSig,
    .blank,
    .define WinMainSig,
    .endifDirective ]

/-- The conditional-inclusion pass of the C preprocessor.  `defined` is the set
of names defined for the build target, `hdr` gives the (already preprocessed)
content of a header, `stack` holds the truth values of the enclosing `#ifdef`s.
Comments and empty lines produce nothing; a line in a false region is skipped. -/
def preprocess (defined : List String) (hdr : String → List SrcLine) :
    List Bool → List SrcLine → List SrcLine
  | _, [] => []
  | stack, .ifdefDirective n :: rest => preprocess defined hdr (defined.contains n :: stack) rest
  | stack, .endifDirective :: rest => preprocess defined hdr stack.tail rest
  | stack, .comment _ :: rest => preprocess defined hdr stack rest
  | stack, .blank :: rest => preprocess defined hdr stack rest
  | stack, .includeDirective h :: rest =>
      if stack.all id then hdr h ++ preprocess defined hdr stack rest
      else preprocess defined hdr stack rest
  | stack, l :: rest =>
      if stack.all id then l :: preprocess defined hdr stack rest
      else preprocess defined hdr stack rest

/-- The translation unit the compiler sees for `winmain_wrapper.c`. -/
def translationUnit (defined : List String) (hdr : String → List SrcLine) : List SrcLine :=
  preprocess defined hdr [] winmain_wrapper_c

/-- The symbols a translation unit defines: its function definitions. -/
def definedSymbols : List SrcLine → List Signature
  | [] => []
  | .define sig :: rest => sig :: definedSymbols rest
  | _ :: rest => definedSymbols rest

/-- The names a program may start at, among the symbols of a link. -/
def entryPoints (syms : List Signature) : List String :=
  (syms.filter (fun sig => sig.name == "main" || sig.name == "WinMain")).map (fun sig => sig.name)

/-- A sample `windows.h`: declarations only. -/
def sampleHeaders : String → List SrcLine := fun h =>
  if h == "windows.h" then
    [ .declare ⟨"int", "MessageBoxA", ["HWND", "LPCSTR", "LPCSTR", "UINT"]⟩,
      .declare ⟨"void", "ExitProcess", ["UINT"]⟩ ]
  else []

/-! ## Theorems: run-time behaviour -/

/-- The forwarder is the call `main(__argc, __argv)` in the current state. -/
theorem WinMain_eq {E W : Type} (main : ConsoleMain E W)
    (hInstance hPrevInstance : HINSTANCE) (lpCmdLine : LPSTR) (nCmdShow : CInt)
    (s : Process W) :
    WinMain main hInstance hPrevInstance lpCmdLine nCmdShow s
      = main s.__argc s.__argv s := rfl

/-! ### Instrumentation lemmas -/

/-- An instrumented call that terminates has logged exactly its own arguments,
after the previous entries. -/
theorem logged_log {E W : Type} (main : ConsoleMain E W) (argc : CInt)
    (argv : List String) (s : Process (W × List Call))
    (h : (logged main argc argv s).terminates = true) :
    (logged main argc argv s).log? = some (s.world.2 ++ [(argc, argv)]) := by
  unfold logged at h ⊢
  cases hm : main argc argv ⟨s.__argc, s.__argv, s.world.1⟩ <;>
    simp_all [Outcome.log?, Outcome.final?, Outcome.terminates]

/-- Instrumentation changes neither the status nor the failure nor whether the
call terminates. -/
theorem logged_faithful {E W : Type} (main : ConsoleMain E W) (argc : CInt)
    (argv : List String) (s : Process (W × List Call)) :
    (logged main argc argv s).status? = (main argc argv ⟨s.__argc, s.__argv, s.world.1⟩).status?
    ∧ (logged main argc argv s).error? = (main argc argv ⟨s.__argc, s.__argv, s.world.1⟩).error?
    ∧ (logged main argc argv s).terminates
        = (main argc argv ⟨s.__argc, s.__argv, s.world.1⟩).terminates := by
  unfold logged
  cases hm : main argc argv ⟨s.__argc, s.__argv, s.world.1⟩ <;>
    simp [Outcome.status?, Outcome.error?, Outcome.terminates]

/-- C1: whenever `main(__argc, __argv)` returns the integer `R`, `WinMain`
returns exactly `R` (in the same final state), for every entry point, every
value of the globals and every four parameters; in particular status 0 for zero
arguments is forwarded as 0, and status 1 for the argument vector
`["prog", "--bad-flag"]` is forwarded as 1. -/
theorem WinMain_returns_status_of_main {E W : Type} (main : ConsoleMain E W)
    (hInstance hPrevInstance : HINSTANCE) (lpCmdLine : LPSTR) (nCmdShow : CInt)
    (s : Process W) :
    (∀ (R : CInt) (f : Process W),
        main s.__argc s.__argv s = .returned R f →
        WinMain main hInstance hPrevInstance lpCmdLine nCmdShow s = .returned R f)
    ∧ (∀ f : Process W, s.__argc = 0 → s.__argv = [] →
        main 0 [] s = .returned 0 f →
        (WinMain main hInstance hPrevInstance lpCmdLine nCmdShow s).status? = some 0)
    ∧ (∀ f : Process W, s.__argv = ["prog", "--bad-flag"] →
        main s.__argc ["prog", "--bad-flag"] s = .returned 1 f →
        (WinMain main hInstance hPrevInstance lpCmdLine nCmdShow s).status? = some 1) := by
  refine ⟨fun R f h => ?_, fun f hc hv h => ?_, fun f hv h => ?_⟩
  · rw [WinMain_eq, h]
  · rw [WinMain_eq, hc, hv, h]; rfl
  · rw [WinMain_eq, hv, h]; rfl

/-- Witness for C1 on `sampleMain`: zero arguments give 0, and the vector
`["prog", "--bad-flag"]` gives 1, through `WinMain`. -/
theorem WinMain_returns_status_of_main_witness :
    (WinMain sampleMain 4194304 0 (some "") 10 ⟨0, [], 7⟩).status? = some 0
    ∧ (WinMain sampleMain 4194304 0 (some "--bad-flag") 10
        ⟨2, ["prog", "--bad-flag"], 7⟩).status? = some 1 :=
  ⟨(WinMain_returns_status_of_main sampleMain 4194304 0 (some "") 10 ⟨0, [], 7⟩).2.1
      ⟨0, [], 7⟩ rfl rfl (by decide),
   (WinMain_returns_status_of_main sampleMain 4194304 0 (some "--bad-flag") 10
      ⟨2, ["prog", "--bad-flag"], 7⟩).2.2 ⟨2, ["prog", "--bad-flag"], 8⟩ rfl (by decide)⟩

/-- C2: the count and vector handed to `main` are the globals `__argc` and
`__argv` of the state at the call: the run is the call of `main` on them, an
instrumented entry point records exactly this pair, and the cast to
`const char **` keeps the vector (same length, same string at every index). -/
theorem WinMain_passes_process_globals {E W : Type} (main : ConsoleMain E W)
    (hInstance hPrevInstance : HINSTANCE) (lpCmdLine : LPSTR) (nCmdShow : CInt)
    (s : Process W) (t : Process (W × List Call)) :
    WinMain main hInstance hPrevInstance lpCmdLine nCmdShow s = main s.__argc s.__argv s
    ∧ ((WinMain (logged main) hInstance hPrevInstance lpCmdLine nCmdShow t).terminates = true →
        (WinMain (logged main) hInstance hPrevInstance lpCmdLine nCmdShow t).log?
          = some (t.world.2 ++ [(t.__argc, t.__argv)]))
    ∧ constCast s.__argv = s.__argv
    ∧ (constCast s.__argv).length = s.__argv.length
    ∧ (∀ i : Nat, (constCast s.__argv)[i]? = s.__argv[i]?) := by
  refine ⟨rfl, fun h => ?_, rfl, rfl, fun _ => rfl⟩
  rw [WinMain_eq] at h ⊢
  exact logged_log main _ _ t h

/-- Witness for C2: with globals `(2, ["prog", "--bad-flag"])` and an unrelated
command line string, the instrumented `sampleMain` records that pair. -/
theorem WinMain_passes_process_globals_witness :
    (WinMain (logged sampleMain) 4194304 0 (some "other words") 10
        ⟨2, ["prog", "--bad-flag"], (7, [])⟩).log? = some [(2, ["prog", "--bad-flag"])] :=
  (WinMain_passes_process_globals sampleMain 4194304 0 (some "other words") 10
      ⟨2, ["prog", "--bad-flag"], 7⟩ ⟨2, ["prog", "--bad-flag"], (7, [])⟩).2.1 (by decide)

/-- C3: the four parameters do not influence the run: for any two parameter
tuples, with entry point, globals and initial state fixed, the outcomes (status
or failure, and final state) are equal, the instrumented runs agree too (same
arguments passed), and whatever `lpCmdLine` is, the arguments recorded are the
globals. -/
theorem WinMain_ignores_parameters {E W : Type} (main : ConsoleMain E W)
    (hInstance hPrevInstance : HINSTANCE) (lpCmdLine : LPSTR) (nCmdShow : CInt)
    (hInstance' hPrevInstance' : HINSTANCE) (lpCmdLine' : LPSTR) (nCmdShow' : CInt)
    (s : Process W) (t : Process (W × List Call)) :
    WinMain main hInstance hPrevInstance lpCmdLine nCmdShow s
      = WinMain main hInstance' hPrevInstance' lpCmdLine' nCmdShow' s
    ∧ (WinMain (logged main) hInstance hPrevInstance lpCmdLine nCmdShow t).log?
      = (WinMain (logged main) hInstance' hPrevInstance' lpCmdLine' nCmdShow' t).log?
    ∧ (WinMain main hInstance hPrevInstance lpCmdLine nCmdShow s).final?
      = (WinMain main hInstance' hPrevInstance' lpCmdLine' nCmdShow' s).final?
    ∧ (∀ c : Call, (WinMain (logged main) hInstance hPrevInstance lpCmdLine nCmdShow t).log?
          = some (t.world.2 ++ [c]) → c = (t.__argc, t.__argv)) := by
  refine ⟨rfl, rfl, rfl, fun c h => ?_⟩
  rw [WinMain_eq] at h
  have ht : (logged main t.__argc t.__argv t).terminates = true := by
    cases ho : logged main t.__argc t.__argv t <;>
      simp_all [Outcome.log?, Outcome.final?, Outcome.terminates]
  rw [logged_log main _ _ t ht] at h
  simpa using h.symm

/-- Witness for C3: a command line string and handles that differ leave the
outcome of `sampleMain` on `["prog"]` as it is. -/
theorem WinMain_ignores_parameters_witness :
    WinMain sampleMain 4194304 0 (some "prog --bad-flag") 10 ⟨1, ["prog"], 7⟩
      = WinMain sampleMain 1 2 none 0 ⟨1, ["prog"], 7⟩ :=
  (WinMain_ignores_parameters sampleMain 4194304 0 (some "prog --bad-flag") 10 1 2 none 0
    ⟨1, ["prog"], 7⟩ ⟨1, ["prog"], (7, [])⟩).1

/-- C4: the forwarder adds no failure of its own: it fails exactly when the
call `main(__argc, __argv)` fails, with the same failure; it returns whenever
that call returns; and it never fails where the call returned. -/
theorem WinMain_fails_iff_main_fails {E W : Type} (main : ConsoleMain E W)
    (hInstance hPrevInstance : HINSTANCE) (lpCmdLine : LPSTR) (nCmdShow : CInt)
    (s : Process W) :
    (∀ (e : E) (f : Process W),
        WinMain main hInstance hPrevInstance lpCmdLine nCmdShow s = .failed e f
          ↔ main s.__argc s.__argv s = .failed e f)
    ∧ (WinMain main hInstance hPrevInstance lpCmdLine nCmdShow s).error?
        = (main s.__argc s.__argv s).error?
    ∧ (∀ (R : CInt) (f : Process W), main s.__argc s.__argv s = .returned R f →
        WinMain main hInstance hPrevInstance lpCmdLine nCmdShow s = .returned R f)
    ∧ ¬ ((WinMain main hInstance hPrevInstance lpCmdLine nCmdShow s).error?.isSome = true
        ∧ (main s.__argc s.__argv s).status?.isSome = true) := by
  refine ⟨fun e f => by rw [WinMain_eq], by rw [WinMain_eq], fun R f h => by rw [WinMain_eq, h], ?_⟩
  rw [WinMain_eq]
  cases main s.__argc s.__argv s <;> simp [Outcome.error?, Outcome.status?]

/-- Witness for C4: `strictMain` fails with `"usage"` on `["prog"]`, and so does
the forwarder, with the same failure and final state. -/
theorem WinMain_fails_iff_main_fails_witness :
    WinMain strictMain 4194304 0 none 1 ⟨1, ["prog"], 0⟩ = .failed "usage" ⟨1, ["prog"], 1⟩
    ∧ WinMain strictMain 4194304 0 none 1 ⟨2, ["prog", "x"], 0⟩
        = .returned 0 ⟨2, ["prog", "x"], 0⟩ :=
  ⟨((WinMain_fails_iff_main_fails strictMain 4194304 0 none 1 ⟨1, ["prog"], 0⟩).1
      "usage" ⟨1, ["prog"], 1⟩).2 (by decide),
   (WinMain_fails_iff_main_fails strictMain 4194304 0 none 1 ⟨2, ["prog", "x"], 0⟩).2.2.1
      0 ⟨2, ["prog", "x"], 0⟩ (by decide)⟩

/-- C5: the forwarder has no effect of its own: the state after `WinMain` from
`s` is the state after `main(__argc, __argv)` from `s`; if `main` leaves
`__argc` and `__argv` as they were, they are as they were after `WinMain`; if
`main` leaves the state unchanged so does `WinMain`; and with an entry point
that touches nothing the whole state is unchanged. -/
theorem WinMain_state_is_state_of_main {E W : Type} (main : ConsoleMain E W)
    (hInstance hPrevInstance : HINSTANCE) (lpCmdLine : LPSTR) (nCmdShow : CInt)
    (s : Process W) :
    (WinMain main hInstance hPrevInstance lpCmdLine nCmdShow s).final?
      = (main s.__argc s.__argv s).final?
    ∧ (∀ f : Process W, (main s.__argc s.__argv s).final? = some f →
        f.__argc = s.__argc → f.__argv = s.__argv →
        ∃ g : Process W,
          (WinMain main hInstance hPrevInstance lpCmdLine nCmdShow s).final? = some g
          ∧ g.__argc = s.__argc ∧ g.__argv = s.__argv ∧ g = f)
    ∧ ((main s.__argc s.__argv s).final? = some s →
        (WinMain main hInstance hPrevInstance lpCmdLine nCmdShow s).final? = some s)
    ∧ (WinMain (E := E) idleMain hInstance hPrevInstance lpCmdLine nCmdShow s).final? = some s := by
  refine ⟨rfl, fun f h hc hv => ⟨f, ?_, hc, hv, rfl⟩, fun h => ?_, rfl⟩
  · rw [WinMain_eq, h]
  · rw [WinMain_eq, h]

/-- Witness for C5: `sampleMain` on `["prog"]` leaves the state unchanged, and
so does the forwarder. -/
theorem WinMain_state_is_state_of_main_witness :
    (WinMain sampleMain 4194304 0 (some "") 10 ⟨1, ["prog"], 7⟩).final?
      = some ⟨1, ["prog"], 7⟩ :=
  (WinMain_state_is_state_of_main sampleMain 4194304 0 (some "") 10 ⟨1, ["prog"], 7⟩).2.2.1
    (by decide)

/-- C7: the forwarder is one call: an instrumented run that terminates has
logged exactly one more call than before (not zero, not two); the outcome is
that of this call, nothing done before or after; and the forwarder terminates
whenever (indeed exactly when) the call `main(__argc, __argv)` terminates. -/
theorem WinMain_calls_main_exactly_once {E W : Type} (main : ConsoleMain E W)
    (hInstance hPrevInstance : HINSTANCE) (lpCmdLine : LPSTR) (nCmdShow : CInt)
    (s : Process W) (t : Process (W × List Call)) :
    ((WinMain (logged main) hInstance hPrevInstance lpCmdLine nCmdShow t).terminates = true →
        ∃ log : List Call,
          (WinMain (logged main) hInstance hPrevInstance lpCmdLine nCmdShow t).log? = some log
          ∧ log.length = t.world.2.length + 1
          ∧ log.take t.world.2.length = t.world.2)
    ∧ ((main s.__argc s.__argv s).terminates = true →
        (WinMain main hInstance hPrevInstance lpCmdLine nCmdShow s).terminates = true)
    ∧ (WinMain main hInstance hPrevInstance lpCmdLine nCmdShow s).terminates
        = (main s.__argc s.__argv s).terminates
    ∧ WinMain main hInstance hPrevInstance lpCmdLine nCmdShow s = main s.__argc s.__argv s := by
  refine ⟨fun h => ?_, fun h => ?_, rfl, rfl⟩
  · rw [WinMain_eq] at h ⊢
    exact ⟨_, logged_log main _ _ t h, by simp, by simp⟩
  · rw [WinMain_eq]; exact h

/-- Witness for C7: from a log holding one earlier call, the instrumented
`strictMain` (which fails here) leaves a log of two calls. -/
theorem WinMain_calls_main_exactly_once_witness :
    ∃ log : List Call,
      (WinMain (logged strictMain) 4194304 0 none 1 ⟨1, ["prog"], (0, [(5, [])])⟩).log?
        = some log
      ∧ log.length = 2 ∧ log.take 1 = [(5, [])] :=
  (WinMain_calls_main_exactly_once strictMain 4194304 0 none 1 ⟨1, ["prog"], 0⟩
    ⟨1, ["prog"], (0, [(5, [])])⟩).1 (by decide)

/-! ## Theorems: build-time behaviour -/

/-- Collecting the defined symbols distributes over concatenation. -/
theorem definedSymbols_append (a b : List SrcLine) :
    definedSymbols (a ++ b) = definedSymbols a ++ definedSymbols b := by
  induction a with
  | nil => rfl
  | cons l a ih => cases l <;> simp [definedSymbols, ih]

/-- C6: the forwarder exists only on the `_WIN32` target.  With `_WIN32` defined
the file adds exactly one definition to what `windows.h` brings, `WinMain`, with
four parameters and result `int`; so with a `windows.h` that only declares, the
translation unit defines exactly the symbol `WinMain`, its one entry point.
With `_WIN32` not defined the translation unit is empty, defines no symbol, and
linking it adds neither a symbol nor an entry point to any program, so a program
whose only entry point is `main` keeps `main` as its only one. -/
theorem WinMain_defined_iff_WIN32 (defined : List String) (hdr : String → List SrcLine)
    (app : List Signature) :
    ("_WIN32" ∈ defined →
        definedSymbols (translationUnit defined hdr)
          = definedSymbols (hdr "windows.h") ++ [WinMainSig]
        ∧ WinMainSig.name = "WinMain" ∧ WinMainSig.ret = "int" ∧ WinMainSig.params.length = 4
        ∧ (definedSymbols (hdr "windows.h") = [] →
            definedSymbols (translationUnit defined hdr) = [WinMainSig]
            ∧ entryPoints (definedSymbols (translationUnit defined hdr)) = ["WinMain"]))
    ∧ ("_WIN32" ∉ defined →
        translationUnit defined hdr = []
        ∧ definedSymbols (translationUnit defined hdr) = []
        ∧ app ++ definedSymbols (translationUnit defined hdr) = app
        ∧ (entryPoints app = ["main"] →
            entryPoints (app ++ definedSymbols (translationUnit defined hdr)) = ["main"])) := by
  constructor
  · intro hw
    have htu : translationUnit defined hdr
        = hdr "windows.h" ++ [.declare mainSig, .define WinMainSig] := by
      simp [translationUnit, winmain_wrapper_c, preprocess, hw]
    rw [htu, definedSymbols_append]
    refine ⟨rfl, rfl, rfl, rfl, fun hh => ?_⟩
    rw [hh]
    exact ⟨rfl, by decide⟩
  · intro hw
    have htu : translationUnit defined hdr = [] := by
      simp [translationUnit, winmain_wrapper_c, preprocess, hw]
    rw [htu]
    refine ⟨rfl, rfl, by simp [definedSymbols], fun h => by simpa [definedSymbols] using h⟩

/-- Witness for C6: the two build targets, with a declaring `windows.h` and a
program that defines `main`. -/
theorem WinMain_defined_iff_WIN32_witness :
    definedSymbols (translationUnit ["_WIN32", "_MSC_VER"] sampleHeaders) = [WinMainSig]
    ∧ translationUnit ["__linux__"] sampleHeaders = []
    ∧ entryPoints ([mainSig] ++ definedSymbols (translationUnit ["__linux__"] sampleHeaders))
        = ["main"] :=
  ⟨((WinMain_defined_iff_WIN32 ["_WIN32", "_MSC_VER"] sampleHeaders [mainSig]).1
      (by decide)).2.2.2.2 (by decide) |>.1,
   ((WinMain_defined_iff_WIN32 ["__linux__"] sampleHeaders [mainSig]).2 (by decide)).1,
   ((WinMain_defined_iff_WIN32 ["__linux__"] sampleHeaders [mainSig]).2 (by decide)).2.2.2
      (by decide)⟩

end WinmainWrapper
